import Mathlib

/-!
Verification development for the CRISPR gRNA designer app
(`src/crispr_app/app.py`).  Pure helper routines living in the absent
`analysis.py` / `utils.py` modules are modelled from the specification
(marked `Modelled from the spec:`); everything else is a direct shallow
embedding of the code in `app.py`.  Real arithmetic (pandas floats) is
embedded as exact rationals.
-/

namespace Crispr

/-- Clamp a rational to the interval `[0, 1]`. -/
def clamp01 (q : ℚ) : ℚ := max 0 (min 1 q)

/-- Number of `G`/`C` bases in a guide. -/
def gcCountL (g : List Char) : Nat := g.countP (fun c => c == 'G' || c == 'C')

/-- GC percentage of a guide, `100·(#G+#C)/len`, as an exact rational
(`0` on the empty string). -/
def gcPct (g : List Char) : ℚ :=
  if g.length = 0 then 0 else (100 * gcCountL g : ℚ) / g.length

/-- Longest homopolymer run: auxiliary scan carrying the previous base,
the current run length and the best run seen. -/
def maxRunAux : List Char → Char → Nat → Nat → Nat
  | [], _, cur, best => max cur best
  | c :: rest, p, cur, best =>
      if c == p then maxRunAux rest p (cur + 1) best
      else maxRunAux rest c 1 (max cur best)

/-- Length of the longest run of identical consecutive bases. -/
def maxRun : List Char → Nat
  | [] => 0
  | c :: rest => maxRunAux rest c 1 0

/-- A homopolymer of 4+ identical consecutive bases is present. -/
def hasHomopolymer (g : List Char) : Bool := decide (4 ≤ maxRun g)

/-- GC count of the seed region (the 8 PAM-proximal bases at the 3' end). -/
def seedGC (g : List Char) : Nat := gcCountL (g.drop (g.length - 8))

/-- The terminal (3'-most) base is `G`. -/
def terminalG (g : List Char) : Bool := g.getLast? == some 'G'

/-- Modelled from the spec: `hybrid_score` lives in the absent
`analysis.py`.  Per spec §4.3 it is a weighted penalty function over GC%
deviation from an ideal midpoint, homopolymer runs of 4+ bases, seed-region
composition, the off-target count (0 here: the app calls it before any
off-target scan, with the guide string as the only argument), and the
identity of the terminal base, clamped to `[0,1]` before combination. -/
def hybrid_score (g : String) : ℚ :=
  let l := g.toList
  clamp01 (1 - |gcPct l - 50| / 100
             - (if hasHomopolymer l then 1/5 else 0)
             - (if seedGC l < 3 then 1/10 else 0)
             - (if terminalG l then 0 else 1/20))

/-- Modelled from the spec: `ml_gRNA_score` lives in the absent
`analysis.py`.  Per spec §4.3 it is a second independent weighted function
over similar composition features (GC%, homopolymer presence, positional
base identity), deterministic and side-effect-free, clamped to `[0,1]`. -/
def ml_gRNA_score (g : String) : ℚ :=
  let l := g.toList
  clamp01 (3/5 + (if 40 ≤ gcPct l ∧ gcPct l ≤ 60 then 1/5 else -(1/10))
               - (if hasHomopolymer l then 3/10 else 0)
               + (if terminalG l then 1/10 else 0))

/-- The Consensus Score as computed at `app.py:137`:
`((df.HybridScore + df.MLScore) / 2).clip(upper=1.0)`. -/
def ConsensusScore (g : String) : ℚ :=
  min ((hybrid_score g + ml_gRNA_score g) / 2) 1

/-- The spec's description of the composite score (§4.3): the arithmetic
mean of the two sub-scores, each clamped to `[0,1]` before combination,
with the mean clamped to at most `1.0`. -/
def consensusSpec (g : String) : ℚ :=
  min ((clamp01 (hybrid_score g) + clamp01 (ml_gRNA_score g)) / 2) 1

theorem clamp01_nonneg (q : ℚ) : 0 ≤ clamp01 q := le_max_left 0 _

theorem clamp01_le_one (q : ℚ) : clamp01 q ≤ 1 := by
  unfold clamp01
  rcases le_total 1 q with h | h
  · simp [min_eq_left h]
  · simp [min_eq_right h, h]

theorem clamp01_of_mem (q : ℚ) (h0 : 0 ≤ q) (h1 : q ≤ 1) : clamp01 q = q := by
  unfold clamp01
  rw [min_eq_right h1, max_eq_right h0]

theorem hybrid_score_mem (g : String) :
    0 ≤ hybrid_score g ∧ hybrid_score g ≤ 1 :=
  ⟨clamp01_nonneg _, clamp01_le_one _⟩

theorem ml_gRNA_score_mem (g : String) :
    0 ≤ ml_gRNA_score g ∧ ml_gRNA_score g ≤ 1 :=
  ⟨clamp01_nonneg _, clamp01_le_one _⟩

/-- C1: for every candidate guide, the Consensus Score computed at
`app.py:137` equals the spec's description — the arithmetic mean of the
Hybrid Score and the ML Score, each sub-score clamped to `[0,1]` before
combination, with the mean clamped to at most `1.0`. -/
theorem consensus_is_clamped_mean (g : String) :
    ConsensusScore g = consensusSpec g := by
  unfold ConsensusScore consensusSpec
  rw [clamp01_of_mem _ (hybrid_score_mem g).1 (hybrid_score_mem g).2,
      clamp01_of_mem _ (ml_gRNA_score_mem g).1 (ml_gRNA_score_mem g).2]

/-- C2: for every guide string, the Hybrid Score, ML Score and Consensus
Score each lie in the closed interval `[0, 1]`. -/
theorem scores_bounded (g : String) :
    (0 ≤ hybrid_score g ∧ hybrid_score g ≤ 1) ∧
    (0 ≤ ml_gRNA_score g ∧ ml_gRNA_score g ≤ 1) ∧
    (0 ≤ ConsensusScore g ∧ ConsensusScore g ≤ 1) := by
  refine ⟨hybrid_score_mem g, ml_gRNA_score_mem g, ?_, min_le_right _ _⟩
  unfold ConsensusScore
  have h1 := (hybrid_score_mem g).1
  have h2 := (ml_gRNA_score_mem g).1
  have : (0 : ℚ) ≤ (hybrid_score g + ml_gRNA_score g) / 2 := by positivity
  exact le_min this (by norm_num)

/-! ## Guide scanner -/

/-- One row of the candidate-guide table produced by the scanner. -/
structure GuideRow where
  gRNA : String
  position : Nat
  strand : Bool
  pamSite : String
deriving DecidableEq, Repr

/-- PAM wildcard match: `N` matches any base, other letters literally;
lengths must agree. -/
def pamMatchesL (pat win : List Char) : Bool :=
  pat.length == win.length &&
  (List.zip pat win).all (fun p => p.1 == 'N' || p.1 == p.2)

/-- Watson–Crick complement of one base. -/
def compBase : Char → Char
  | 'A' => 'T'
  | 'T' => 'A'
  | 'G' => 'C'
  | 'C' => 'G'
  | c => c

/-- Reverse complement of a sequence. -/
def revCompL (s : List Char) : List Char := (s.map compBase).reverse

/-- Round-half-up of the ratio `a / b`, in integer arithmetic:
`⌊a/b + 1/2⌋ = ⌊(2a+b)/(2b)⌋` (`0` when `b = 0`). -/
def roundNatDiv (a b : ℕ) : ℕ := (2 * a + b) / (2 * b)

/-- Rounded GC percentage of a guide, `round(100·(#G+#C)/len)`, computed
in integer arithmetic. -/
def gcRoundN (g : List Char) : ℕ := roundNatDiv (100 * gcCountL g) g.length

theorem roundNatDiv_eq_round (a b : ℕ) :
    (roundNatDiv a b : ℤ) = round ((a : ℚ) / b) := by
  rcases Nat.eq_zero_or_pos b with hb | hb
  · subst hb
    simp [roundNatDiv]
  · have hb' : (0 : ℚ) < b := by exact_mod_cast hb
    have h1 : (a : ℚ) / b + 1 / 2 = ((2 * a + b : ℕ) : ℚ) / ((2 * b : ℕ) : ℚ) := by
      push_cast
      field_simp
      ring
    have h0 : (0 : ℚ) ≤ ((2 * a + b : ℕ) : ℚ) / ((2 * b : ℕ) : ℚ) := by positivity
    rw [round_eq, h1, ← Int.natCast_floor_eq_floor h0, Nat.floor_div_eq_div]
    rfl

/-- The integer-arithmetic rounded GC% agrees with the spec's formula
`round(100·(#G+#C)/len)` over exact rationals. -/
theorem gcRoundN_eq_round (g : List Char) :
    (gcRoundN g : ℤ) = round (gcPct g) := by
  unfold gcRoundN gcPct
  split
  case isTrue h =>
    rw [h]
    simp [roundNatDiv]
  case isFalse h =>
    rw [roundNatDiv_eq_round]
    norm_cast

/-- Scan one strand: at every offset, a `guide_len`-base substring
immediately followed by a PAM-pattern match, kept when the rounded GC
percentage lies in `[mn, mx]`. -/
def scanStrand (s pat : List Char) (guide_len : Nat) (mn mx : ℤ)
    (fwd : Bool) : List GuideRow :=
  (List.range (s.length + 1 - guide_len - pat.length)).filterMap (fun i =>
    let g := (s.drop i).take guide_len
    let p := (s.drop (i + guide_len)).take pat.length
    if pamMatchesL pat p && decide (mn ≤ (gcRoundN g : ℤ)) &&
       decide ((gcRoundN g : ℤ) ≤ mx)
    then some ⟨String.mk g, i, fwd, String.mk p⟩ else none)

/-- Modelled from the spec: `find_gRNAs` lives in the absent
`analysis.py`.  Per spec §4.1 it normalizes the sequence to uppercase and
produces every candidate whose guide substring immediately precedes a
PAM-pattern match on either the forward sequence or its reverse
complement, subject to the inclusive GC filter; forward strand first,
ascending start position. -/
def find_gRNAs (seq pam : String) (guide_len : Nat) (mn mx : ℤ) :
    List GuideRow :=
  let s := seq.toList.map Char.toUpper
  scanStrand s pam.toList guide_len mn mx true ++
  scanStrand (revCompL s) pam.toList guide_len mn mx false

theorem toList_mk (l : List Char) : (String.mk l).toList = l := rfl

theorem scanStrand_gc (s pat : List Char) (guide_len : Nat) (mn mx : ℤ)
    (fwd : Bool) (r : GuideRow) (hr : r ∈ scanStrand s pat guide_len mn mx fwd) :
    r.gRNA.toList.length = guide_len ∧
    mn ≤ round (gcPct r.gRNA.toList) ∧ round (gcPct r.gRNA.toList) ≤ mx := by
  unfold scanStrand at hr
  rw [List.mem_filterMap] at hr
  obtain ⟨i, hi, hf⟩ := hr
  rw [List.mem_range] at hi
  dsimp only at hf
  split at hf
  case isFalse => exact absurd hf (by simp)
  case isTrue h =>
    obtain rfl := Option.some.inj hf
    simp only [Bool.and_eq_true, decide_eq_true_eq] at h
    simp only [toList_mk, ← gcRoundN_eq_round]
    refine ⟨?_, h.1.2, h.2⟩
    simp only [List.length_take, List.length_drop]
    omega

/-- C6: every candidate returned by the scanner has a guide substring of
exactly `guide_len` bases whose rounded GC percentage
`round(100·(#G+#C)/guide_len)` lies within `[mn, mx]` inclusive. -/
theorem find_gRNAs_gc (seq pam : String) (guide_len : Nat) (mn mx : ℤ)
    (r : GuideRow) (hr : r ∈ find_gRNAs seq pam guide_len mn mx) :
    r.gRNA.toList.length = guide_len ∧
    mn ≤ round (gcPct r.gRNA.toList) ∧ round (gcPct r.gRNA.toList) ≤ mx := by
  unfold find_gRNAs at hr
  rw [List.mem_append] at hr
  rcases hr with h | h
  · exact scanStrand_gc _ _ _ _ _ _ _ h
  · exact scanStrand_gc _ _ _ _ _ _ _ h

set_option maxHeartbeats 1000000 in
/-- Witness for C6 at a concrete scan. -/
theorem find_gRNAs_gc_witness :
    (⟨"GCGCGCGCGCGCGCGCGCGC", 0, true, "AGG"⟩ : GuideRow) ∈
      find_gRNAs "GCGCGCGCGCGCGCGCGCGCAGG" "NGG" 20 40 100 ∧
    (("GCGCGCGCGCGCGCGCGCGC" : String).toList.length = 20 ∧
     (40 : ℤ) ≤ round (gcPct ("GCGCGCGCGCGCGCGCGCGC" : String).toList) ∧
     round (gcPct ("GCGCGCGCGCGCGCGCGCGC" : String).toList) ≤ 100) :=
  ⟨by decide, find_gRNAs_gc "GCGCGCGCGCGCGCGCGCGCAGG" "NGG" 20 40 100
    ⟨"GCGCGCGCGCGCGCGCGCGC", 0, true, "AGG"⟩ (by decide)⟩

/-! ## Off-target table, counts and per-guide scores -/

/-- One row of the off-target table: guide string, position in the
background sequence, and mismatch count. -/
structure OTHit where
  gRNA : String
  position : Nat
  mismatches : Nat
deriving DecidableEq, Repr

/-- `groupby("gRNA").size()`: association list from guide string to the
number of hits, built by a fold that bumps the key's counter. -/
def bumpCount (g : String) : List (String × Nat) → List (String × Nat)
  | [] => [(g, 1)]
  | (k, n) :: rest =>
      if k == g then (k, n + 1) :: rest else (k, n) :: bumpCount g rest

/-- Sizes of the `groupby("gRNA")` groups of the off-target table. -/
def groupSizes (hits : List OTHit) : List (String × Nat) :=
  hits.foldl (fun acc h => bumpCount h.gRNA acc) []

/-- `.map(ot_counts).fillna(0)`: look a guide up in the group sizes,
defaulting to `0`. -/
def lookupCount (m : List (String × Nat)) (g : String) : Nat :=
  match m.find? (fun p => p.1 == g) with
  | some p => p.2
  | none => 0

/-- The `OffTargetCount` column of `app.py:139-144`: `0` when the
off-target state is absent or empty, otherwise the guide's group size in
`offtargets.groupby("gRNA").size()`, `0` when the guide is absent. -/
def offTargetCount (ot : Option (List OTHit)) (g : String) : Nat :=
  match ot with
  | none => 0
  | some hits => if hits.isEmpty then 0 else lookupCount (groupSizes hits) g

/-- The `OffTargetCount` cell assigned to one candidate-guide row
(`df["gRNA"].map(ot_counts)` is keyed by the row's gRNA string). -/
def offTargetCountRow (ot : Option (List OTHit)) (r : GuideRow) : Nat :=
  offTargetCount ot r.gRNA

theorem lookupCount_nil (g : String) : lookupCount [] g = 0 := rfl

theorem lookupCount_cons (k : String) (n : Nat) (m : List (String × Nat))
    (g : String) :
    lookupCount ((k, n) :: m) g = if k = g then n else lookupCount m g := by
  unfold lookupCount
  by_cases h : k = g
  · subst h
    rw [List.find?_cons_of_pos _ (by simp)]
    simp
  · rw [List.find?_cons_of_neg _ (by simpa using h)]
    simp [h]

theorem lookupCount_bumpCount (g k : String) (m : List (String × Nat)) :
    lookupCount (bumpCount k m) g =
      lookupCount m g + (if k = g then 1 else 0) := by
  induction m with
  | nil =>
      by_cases h : k = g
      · subst h
        simp [bumpCount, lookupCount_cons, lookupCount_nil]
      · simp [bumpCount, lookupCount_cons, lookupCount_nil, h]
  | cons p rest ih =>
      obtain ⟨k', n⟩ := p
      by_cases h1 : k' = k
      · subst h1
        by_cases h2 : k' = g
        · subst h2
          simp [bumpCount, lookupCount_cons]
        · simp [bumpCount, lookupCount_cons, h2]
      · by_cases h2 : k' = g
        · subst h2
          have hkg : ¬ k = k' := fun hh => h1 hh.symm
          simp [bumpCount, h1, lookupCount_cons, hkg]
        · simp [bumpCount, lookupCount_cons, h1, h2, ih]


theorem lookupCount_foldl (hits : List OTHit) (acc : List (String × Nat))
    (g : String) :
    lookupCount (hits.foldl (fun acc h => bumpCount h.gRNA acc) acc) g =
      lookupCount acc g + hits.countP (fun h => h.gRNA == g) := by
  induction hits generalizing acc with
  | nil => simp
  | cons h rest ih =>
      rw [List.foldl_cons, ih, lookupCount_bumpCount, List.countP_cons]
      by_cases hg : h.gRNA = g
      · simp [hg]
        omega
      · simp [hg]

theorem lookupCount_groupSizes (hits : List OTHit) (g : String) :
    lookupCount (groupSizes hits) g = hits.countP (fun h => h.gRNA == g) := by
  unfold groupSizes
  rw [lookupCount_foldl, lookupCount_nil, Nat.zero_add]

/-- C3: with no off-target state (scan not run) or an empty hit table,
every guide's `OffTargetCount` is `0`; with a recorded hit table, each
guide's `OffTargetCount` equals the number of hits recorded for that
guide's sequence. -/
theorem offTargetCount_spec (g : String) :
    offTargetCount none g = 0 ∧
    offTargetCount (some []) g = 0 ∧
    ∀ hits : List OTHit,
      offTargetCount (some hits) g = hits.countP (fun h => h.gRNA == g) := by
  refine ⟨rfl, rfl, fun hits => ?_⟩
  rcases hits with _ | ⟨h, rest⟩
  · rfl
  · have hred : offTargetCount (some (h :: rest)) g =
        lookupCount (groupSizes (h :: rest)) g := rfl
    rw [hred, lookupCount_groupSizes]

/-- C10: the `OffTargetCount` cell of a candidate-guide row depends only
on the row's gRNA string: rows with equal guide strings always receive
equal counts, whatever their positions or strands. -/
theorem offTargetCountRow_keyed (ot : Option (List OTHit)) (r1 r2 : GuideRow)
    (h : r1.gRNA = r2.gRNA) :
    offTargetCountRow ot r1 = offTargetCountRow ot r2 := by
  unfold offTargetCountRow
  rw [h]

/-- Witness for C10: two rows with the same guide at different positions
and strands. -/
theorem offTargetCountRow_keyed_witness :
    (⟨"ACGTACGT", 3, true, "AGG"⟩ : GuideRow).gRNA =
      (⟨"ACGTACGT", 17, false, "TGG"⟩ : GuideRow).gRNA ∧
    offTargetCountRow (some [⟨"ACGTACGT", 0, 2⟩]) ⟨"ACGTACGT", 3, true, "AGG"⟩ =
      offTargetCountRow (some [⟨"ACGTACGT", 0, 2⟩]) ⟨"ACGTACGT", 17, false, "TGG"⟩ :=
  ⟨rfl, offTargetCountRow_keyed (some [⟨"ACGTACGT", 0, 2⟩])
    ⟨"ACGTACGT", 3, true, "AGG"⟩ ⟨"ACGTACGT", 17, false, "TGG"⟩ rfl⟩

/-- Python's `round(x, 3)` modelled as rounding to 3 decimal places
(half up) over exact rationals. -/
def round3 (q : ℚ) : ℚ := (round (1000 * q) : ℚ) / 1000

/-- The off-target hits recorded for one guide
(`offtargets[offtargets.gRNA == g]`). -/
def hitsFor (hits : List OTHit) (g : String) : List OTHit :=
  hits.filter (fun h => h.gRNA == g)

/-- Sum of the mismatch counts of the hits recorded for one guide
(`....Mismatches.sum()`). -/
def mmSum (hits : List OTHit) (g : String) : ℕ :=
  ((hitsFor hits g).map (fun h => h.mismatches)).sum

/-- The per-guide off-target score assigned at `app.py:231-248`:
`round(1.0 if <no hits for g> else 1.0 / (1 + <mismatch sum for g>), 3)`. -/
def guideScore (hits : List OTHit) (g : String) : ℚ :=
  round3 (if (hitsFor hits g).isEmpty then 1 else 1 / (1 + (mmSum hits g : ℚ)))

/-- The `guide_scores` dict built after an off-target scan: one entry per
guide of the candidate table. -/
def guide_scores (hits : List OTHit) (guides : List String) :
    List (String × ℚ) :=
  guides.map (fun g => (g, guideScore hits g))

theorem floor_half_add_natCast (n : ℕ) : ⌊(n : ℚ) + 1 / 2⌋ = n := by
  rw [add_comm, Int.floor_add_nat, show ⌊(1 / 2 : ℚ)⌋ = 0 from
    Int.floor_eq_zero_iff.mpr (by constructor <;> norm_num)]
  norm_num

theorem round3_one : round3 1 = 1 := by
  unfold round3
  rw [mul_one, show ((1000 : ℚ)) = ((1000 : ℕ) : ℚ) by norm_num, round_natCast]
  norm_num

theorem round3_bounds (q : ℚ) (h0 : 0 ≤ q) (h1 : q ≤ 1) :
    0 ≤ round3 q ∧ round3 q ≤ 1 := by
  unfold round3
  have hlo : (0 : ℤ) ≤ round (1000 * q) := by
    rw [round_eq]
    exact Int.le_floor.mpr (by push_cast; linarith)
  have hhi : round (1000 * q) ≤ 1000 := by
    rw [round_eq]
    calc ⌊1000 * q + 1 / 2⌋ ≤ ⌊((1000 : ℕ) : ℚ) + 1 / 2⌋ :=
          Int.floor_le_floor (by push_cast; linarith)
      _ = 1000 := floor_half_add_natCast 1000
  constructor
  · positivity
  · rw [div_le_one (by norm_num)]
    exact_mod_cast hhi

theorem mmSum_of_hitsFor_nil (hits : List OTHit) (g : String)
    (h : hitsFor hits g = []) : mmSum hits g = 0 := by
  unfold mmSum
  rw [h]
  rfl

/-- C9 (amended): the per-guide off-target score equals
`round(1 / (1 + S), 3)` where `S` is the sum of the mismatch counts of the
hits recorded for the guide; it equals `1.0` when the guide has no hits;
and it always lies in `[0, 1]` (it reaches `0.0` once `S ≥ 2000`, so the
interval `(0, 1]` claimed is not tight at the bottom). -/
theorem guideScore_formula (hits : List OTHit) (g : String) :
    guideScore hits g = round3 (1 / (1 + (mmSum hits g : ℚ))) ∧
    (hitsFor hits g = [] → guideScore hits g = 1) ∧
    0 ≤ guideScore hits g ∧ guideScore hits g ≤ 1 := by
  have hq0 : (0 : ℚ) ≤ 1 / (1 + (mmSum hits g : ℚ)) := by positivity
  have hq1 : 1 / (1 + (mmSum hits g : ℚ)) ≤ 1 := by
    rw [div_le_one (by positivity)]
    have : (0 : ℚ) ≤ (mmSum hits g : ℚ) := by positivity
    linarith
  have hformula : guideScore hits g = round3 (1 / (1 + (mmSum hits g : ℚ))) := by
    unfold guideScore
    by_cases he : (hitsFor hits g).isEmpty
    · rw [if_pos he, mmSum_of_hitsFor_nil hits g (List.isEmpty_iff.mp he)]
      norm_num
    · rw [if_neg he]
  refine ⟨hformula, ?_, ?_⟩
  · intro h
    unfold guideScore
    rw [if_pos (List.isEmpty_iff.mpr h), round3_one]
  · rw [hformula]
    exact round3_bounds _ hq0 hq1

/-- Witness for C9's amended statement: with no recorded hits the score
is `1.0`. -/
theorem guideScore_formula_witness :
    hitsFor [] "ACGTACGT" = [] ∧ guideScore [] "ACGTACGT" = 1 :=
  ⟨rfl, (guideScore_formula [] "ACGTACGT").2.1 rfl⟩

/-- Counterexample to C9 as stated: with 500 recorded hits of 4 mismatches
each (mismatch sum `S = 2000`, reachable with a long pasted background),
the assigned score is `round(1/2001, 3) = 0.0`, which is not in `(0, 1]`. -/
theorem guideScore_zero_counterexample :
    ¬ (0 < guideScore
        (List.replicate 500 (⟨"AAAAAAAAAAAAAAAAAAAA", 0, 4⟩ : OTHit))
        "AAAAAAAAAAAAAAAAAAAA") := by
  have hfil : hitsFor
      (List.replicate 500 (⟨"AAAAAAAAAAAAAAAAAAAA", 0, 4⟩ : OTHit))
      "AAAAAAAAAAAAAAAAAAAA" =
      List.replicate 500 (⟨"AAAAAAAAAAAAAAAAAAAA", 0, 4⟩ : OTHit) := by
    unfold hitsFor
    rw [List.filter_eq_self.mpr]
    intro a ha
    rw [List.eq_of_mem_replicate ha]
    rfl
  have hsum : mmSum
      (List.replicate 500 (⟨"AAAAAAAAAAAAAAAAAAAA", 0, 4⟩ : OTHit))
      "AAAAAAAAAAAAAAAAAAAA" = 2000 := by
    unfold mmSum
    rw [hfil, List.map_replicate, List.sum_replicate, smul_eq_mul]
    rfl
  have hscore : guideScore
      (List.replicate 500 (⟨"AAAAAAAAAAAAAAAAAAAA", 0, 4⟩ : OTHit))
      "AAAAAAAAAAAAAAAAAAAA" = round3 (1 / 2001) := by
    rw [(guideScore_formula _ _).1, hsum]
    norm_num
  have hzero : round3 ((1 : ℚ) / 2001) = 0 := by
    unfold round3
    rw [round_eq, show (1000 : ℚ) * (1 / 2001) + 1 / 2 = 4001 / 4002 by norm_num]
    rw [show ⌊(4001 / 4002 : ℚ)⌋ = 0 from Int.floor_eq_zero_iff.mpr
      (by constructor <;> norm_num)]
    norm_num
  rw [hscore, hzero]
  exact lt_irrefl 0

/-! ## Edit simulation -/

/-- Index of a base in the `T, C, A, G` order of the codon table. -/
def baseIdx : Char → Option Nat
  | 'T' => some 0
  | 'C' => some 1
  | 'A' => some 2
  | 'G' => some 3
  | _ => none

/-- The standard genetic code in `TCAG` order (`*` marks a stop codon). -/
def aaTable : List Char :=
  "FFLLSSSSYY**CC*WLLLLPPPPHHQQRRRRIIIMTTTTNNKKSSRRVVVVAAAADDEEGGGG".toList

/-- Amino acid (or `*` for stop) of one codon; `X` on a non-ACGT base. -/
def codonAA (b1 b2 b3 : Char) : Char :=
  match baseIdx b1, baseIdx b2, baseIdx b3 with
  | some i, some j, some k => aaTable.getD (16 * i + 4 * j + k) 'X'
  | _, _, _ => 'X'

/-- Translate from position 0 in codon steps, halting at the first stop
codon or at the end of the sequence (incomplete codons are dropped). -/
def translateL : List Char → List Char
  | b1 :: b2 :: b3 :: rest =>
      if codonAA b1 b2 b3 = '*' then [] else codonAA b1 b2 b3 :: translateL rest
  | _ => []

/-- Codon index of the first stop codon in frame, if any. -/
def stopIdxL : List Char → Option Nat
  | b1 :: b2 :: b3 :: rest =>
      if codonAA b1 b2 b3 = '*' then some 0
      else (stopIdxL rest).map (· + 1)
  | _ => none

/-- The edit kinds offered by the app (`del1`, `del3`, `insA`, `insG`,
and single-base substitution with explicit from/to bases). -/
inductive EditKind where
  | del1 : EditKind
  | del3 : EditKind
  | insA : EditKind
  | insG : EditKind
  | subst : Char → Char → EditKind
deriving DecidableEq, Repr

/-- Apply one edit to the sequence at the given position. -/
def applyEdit (s : List Char) (pos : Nat) : EditKind → List Char
  | .del1 => s.take pos ++ s.drop (pos + 1)
  | .del3 => s.take pos ++ s.drop (pos + 3)
  | .insA => s.take pos ++ 'A' :: s.drop pos
  | .insG => s.take pos ++ 'G' :: s.drop pos
  | .subst _ t =>
      s.take pos ++ (match s.drop pos with
        | [] => []
        | _ :: rest => t :: rest)

/-- Net length change of each edit kind: `+1` for an insertion, `-1` and
`-3` for the deletions, `0` for a substitution. -/
def netChange : EditKind → ℤ
  | .del1 => -1
  | .del3 => -3
  | .insA => 1
  | .insG => 1
  | .subst _ _ => 0

/-- The edit position leaves enough sequence for the edit to act on. -/
def editValidB (s : List Char) (pos : Nat) : EditKind → Bool
  | .del1 => decide (pos + 1 ≤ s.length)
  | .del3 => decide (pos + 3 ≤ s.length)
  | .insA => decide (pos ≤ s.length)
  | .insG => decide (pos ≤ s.length)
  | .subst _ _ => decide (pos < s.length)

/-- Modelled from the spec: `simulate_protein_edit` lives in the absent
`analysis.py`.  Per spec §4.4 it returns the protein translated before the
edit, the protein after, a frameshift flag (the length change is not a
multiple of 3), and a premature-stop flag (a stop codon appears strictly
earlier than pre-edit, or appears where none existed). -/
def simulate_protein_edit (seq : String) (pos : Nat) (k : EditKind) :
    String × String × Bool × Bool :=
  let s := seq.toList.map Char.toUpper
  let e := applyEdit s pos k
  let fs := ((e.length : ℤ) - (s.length : ℤ)) % 3 != 0
  let stop :=
    match stopIdxL s, stopIdxL e with
    | some i, some j => decide (j < i)
    | none, some _ => true
    | _, none => false
  (String.mk (translateL s), String.mk (translateL e), fs, stop)

theorem applyEdit_length (s : List Char) (pos : Nat) (k : EditKind)
    (hv : editValidB s pos k = true) :
    (applyEdit s pos k).length = ((s.length : ℤ) + netChange k).toNat := by
  cases k <;>
    simp only [editValidB, decide_eq_true_eq] at hv <;>
    simp only [applyEdit, netChange, List.length_append, List.length_take,
      List.length_drop, List.length_cons]
  · omega
  · omega
  · omega
  · omega
  · cases hd : s.drop pos with
    | nil =>
        exfalso
        have hlen := congrArg List.length hd
        simp only [List.length_drop, List.length_nil] at hlen
        omega
    | cons c rest =>
        have hlen := congrArg List.length hd
        simp only [List.length_drop, List.length_cons] at hlen
        simp only [List.length_cons]
        omega

/-- C7: the frameshift flag of the edit simulation is `true` exactly when
the net length change of the edit is not a multiple of 3; in particular a
1-base insertion of `A` at offset 3 of the example coding sequence
reports a frameshift. -/
theorem simulate_frameshift (seq : String) (pos : Nat) (k : EditKind)
    (hv : editValidB (seq.toList.map Char.toUpper) pos k = true) :
    ((simulate_protein_edit seq pos k).2.2.1 = true ↔
      ¬ ((3 : ℤ) ∣ netChange k)) ∧
    (simulate_protein_edit "ATGGCCATTGTAATGGGCCGCTGAAAGGGTGCCCGATAG" 3
      EditKind.insA).2.2.1 = true := by
  have hnc : ((((seq.toList.map Char.toUpper).length : ℤ) + netChange k).toNat : ℤ)
      - ((seq.toList.map Char.toUpper).length : ℤ) = netChange k := by
    cases k <;>
      simp only [editValidB, decide_eq_true_eq] at hv <;>
      simp only [netChange] <;> omega
  constructor
  · unfold simulate_protein_edit
    simp only [bne_iff_ne, ne_eq]
    rw [applyEdit_length _ _ _ hv, hnc, Int.dvd_iff_emod_eq_zero]
  · decide

/-- Witness for C7: a valid 1-base deletion, whose `-1` length change is
not a multiple of 3. -/
theorem simulate_frameshift_witness :
    editValidB ("ACGTTT".toList.map Char.toUpper) 2 EditKind.del1 = true ∧
    (((simulate_protein_edit "ACGTTT" 2 EditKind.del1).2.2.1 = true ↔
        ¬ ((3 : ℤ) ∣ netChange EditKind.del1)) ∧
      (simulate_protein_edit "ATGGCCATTGTAATGGGCCGCTGAAAGGGTGCCCGATAG" 3
        EditKind.insA).2.2.1 = true) :=
  ⟨by decide, simulate_frameshift "ACGTTT" 2 EditKind.del1 (by decide)⟩

/-! ## Session state and button handlers -/

/-- Modelled from the spec: `indel_simulations` lives in the absent
`analysis.py` and the spec does not describe its output, so its result is
embedded as an opaque record of the arguments the app passes it
(`app.py:293-295`); the claims below only compare such results for
identity. -/
structure IndelSim where
  seq : String
  pos : Nat
deriving DecidableEq, Repr

/-- The `st.session_state` slots initialised at `app.py:96-107`. -/
structure SessionState where
  df_guides : Option (List GuideRow)
  offtargets : Option (List OTHit)
  guide_scores : Option (List (String × ℚ))
  selected_gRNA : Option String
  selected_edit : Option String
  sim_result : Option (String × String × Bool × Bool)
  sim_indel : Option IndelSim
  ai_response : Option String
  gemini_report : Option String
deriving DecidableEq

/-- Modelled from the spec: `validate_sequence` lives in the absent
`utils.py`.  Per spec §§4.1/6/7 the input is whitespace-stripped and
uppercased; it fails when empty or when a character outside
`{A,C,G,T,N}` remains. -/
def validate_sequence (seq : String) : Bool × String :=
  let s := (seq.toList.filter (fun c => !c.isWhitespace)).map Char.toUpper
  if s.isEmpty then (false, "Empty sequence")
  else if s.all (fun c => c == 'A' || c == 'C' || c == 'G' || c == 'T' || c == 'N')
  then (true, "")
  else (false, "InvalidSequenceError: non-ACGTN character in sequence")

/-- Python's `str.find`: index of the first occurrence of `needle` in
`hay`, `None` standing for `-1`. -/
def strFind (hay needle : List Char) : Option Nat :=
  (List.range (hay.length + 1)).find?
    (fun i => (hay.drop i).take needle.length == needle)

/-- Python's `str.strip`: drop whitespace from both ends. -/
def pyStrip (s : String) : String :=
  String.mk
    (((s.toList.dropWhile Char.isWhitespace).reverse.dropWhile
      Char.isWhitespace).reverse)

/-- The `Find gRNAs` button (`app.py:109-126`): on an invalid sequence the
guide table is cleared and nothing else changes; on a valid one the guide
table is recomputed and all downstream results are reset
(`offtargets`, `guide_scores`, `sim_result`, `sim_indel` to `None`,
`ai_response` to `""`, `gemini_report` to `None`). -/
def findGRNAsButton (dna_seq pam : String) (guide_len : Nat) (mn mx : ℤ)
    (s : SessionState) : SessionState :=
  if (validate_sequence dna_seq).1 then
    { s with
        df_guides := some (find_gRNAs dna_seq pam guide_len mn mx),
        offtargets := none,
        guide_scores := none,
        sim_result := none,
        sim_indel := none,
        ai_response := some "",
        gemini_report := none }
  else { s with df_guides := none }

/-- The `Simulate` button (`app.py:281-295`): look the selected gRNA up in
the uppercased source sequence; on failure report
`"gRNA not found in sequence!"` and change nothing, on success store the
edit simulation and the indel simulations. -/
def simulateButton (dna_seq : String) (edit_offset : Nat) (g : String)
    (k : EditKind) (s : SessionState) : SessionState × Option String :=
  match strFind (dna_seq.toList.map Char.toUpper) g.toList with
  | none => (s, some "gRNA not found in sequence!")
  | some idx =>
      ({ s with
          sim_result := some (simulate_protein_edit dna_seq (idx + edit_offset) k),
          sim_indel := some ⟨dna_seq, idx + edit_offset⟩ }, none)

/-- The `Generate Gemini Report` button (`app.py:184-212`): nothing
happens without a plausible API key; otherwise the external
explanation call either succeeds and its text is stored, or raises, and
the caught failure text is stored as `"API error:\n" + traceback`.  The
external call itself is opaque and embedded as an `Except` value. -/
def generateReportButton (api_key : String) (callResult : Except String String)
    (s : SessionState) : SessionState :=
  if api_key.isEmpty ∨ (pyStrip api_key).length < 10 then s
  else
    match callResult with
    | Except.ok t => { s with gemini_report := some t }
    | Except.error tb => { s with gemini_report := some ("API error:\n" ++ tb) }

/-- C8: every successful run of the guide scan resets all downstream
session results — off-target hits, per-guide off-target scores,
simulation results, indel simulations, AI response and the generated
report — while storing the fresh guide table. -/
theorem findGRNAs_resets (dna_seq pam : String) (guide_len : Nat) (mn mx : ℤ)
    (s : SessionState) (hv : (validate_sequence dna_seq).1 = true) :
    (findGRNAsButton dna_seq pam guide_len mn mx s).df_guides =
      some (find_gRNAs dna_seq pam guide_len mn mx) ∧
    (findGRNAsButton dna_seq pam guide_len mn mx s).offtargets = none ∧
    (findGRNAsButton dna_seq pam guide_len mn mx s).guide_scores = none ∧
    (findGRNAsButton dna_seq pam guide_len mn mx s).sim_result = none ∧
    (findGRNAsButton dna_seq pam guide_len mn mx s).sim_indel = none ∧
    (findGRNAsButton dna_seq pam guide_len mn mx s).ai_response = some "" ∧
    (findGRNAsButton dna_seq pam guide_len mn mx s).gemini_report = none := by
  unfold findGRNAsButton
  rw [if_pos hv]
  exact ⟨rfl, rfl, rfl, rfl, rfl, rfl, rfl⟩

/-- Witness for C8: a valid scan over a concrete state carrying stale
downstream results. -/
theorem findGRNAs_resets_witness :
    (validate_sequence "ACGTACGTACGT").1 = true ∧
    (findGRNAsButton "ACGTACGTACGT" "NGG" 20 40 70
        ⟨none, some [⟨"ACGT", 0, 1⟩], none, none, none, none,
          some ⟨"ACGT", 2⟩, some "stale", some "stale report"⟩).offtargets =
      none := by
  refine ⟨by decide, ?_⟩
  exact (findGRNAs_resets "ACGTACGTACGT" "NGG" 20 40 70
    ⟨none, some [⟨"ACGT", 0, 1⟩], none, none, none, none,
      some ⟨"ACGT", 2⟩, some "stale", some "stale report"⟩ (by decide)).2.1

/-- C4: when the selected guide does not occur in the uppercased source
sequence, the `Simulate` handler reports the not-found error and leaves
the whole session state — in particular the stored `sim_result` and
`sim_indel` — unchanged. -/
theorem simulate_not_found (dna_seq : String) (edit_offset : Nat) (g : String)
    (k : EditKind) (s : SessionState)
    (h : strFind (dna_seq.toList.map Char.toUpper) g.toList = none) :
    (simulateButton dna_seq edit_offset g k s).1 = s ∧
    (simulateButton dna_seq edit_offset g k s).2 =
      some "gRNA not found in sequence!" ∧
    (simulateButton dna_seq edit_offset g k s).1.sim_result = s.sim_result ∧
    (simulateButton dna_seq edit_offset g k s).1.sim_indel = s.sim_indel := by
  unfold simulateButton
  rw [h]
  exact ⟨rfl, rfl, rfl, rfl⟩

/-- Witness for C4: a guide absent from a concrete sequence. -/
theorem simulate_not_found_witness :
    strFind ("ACGTACGT".toList.map Char.toUpper) "TTTT".toList = none ∧
    (simulateButton "ACGTACGT" 3 "TTTT" EditKind.del1
        ⟨none, none, none, none, none, none, some ⟨"ACGTACGT", 1⟩,
          none, none⟩).1.sim_indel = some ⟨"ACGTACGT", 1⟩ := by
  refine ⟨by decide, ?_⟩
  exact (simulate_not_found "ACGTACGT" 3 "TTTT" EditKind.del1
    ⟨none, none, none, none, none, none, some ⟨"ACGTACGT", 1⟩,
      none, none⟩ (by decide)).2.2.2

/-- C5: for every failure of the external explanation call, the caught
failure text becomes the report output and the scanning/scoring state —
guide table, scores and off-target results — is unchanged; the handler
never aborts. -/
theorem report_failure_safe (api_key e : String) (s : SessionState)
    (hk : ¬ (api_key.isEmpty = true ∨ (pyStrip api_key).length < 10)) :
    (generateReportButton api_key (Except.error e) s).gemini_report =
      some ("API error:\n" ++ e) ∧
    (generateReportButton api_key (Except.error e) s).df_guides = s.df_guides ∧
    (generateReportButton api_key (Except.error e) s).offtargets = s.offtargets ∧
    (generateReportButton api_key (Except.error e) s).guide_scores =
      s.guide_scores ∧
    (generateReportButton api_key (Except.error e) s).sim_result =
      s.sim_result ∧
    (generateReportButton api_key (Except.error e) s).sim_indel =
      s.sim_indel := by
  unfold generateReportButton
  rw [if_neg (by simpa using hk)]
  exact ⟨rfl, rfl, rfl, rfl, rfl, rfl⟩

/-- Witness for C5: a transient failure with a plausible key over a
concrete state carrying scan results. -/
theorem report_failure_safe_witness :
    ¬ (("ABCDEFGHIJKL" : String).isEmpty = true ∨
        (pyStrip "ABCDEFGHIJKL").length < 10) ∧
    (generateReportButton "ABCDEFGHIJKL"
        (Except.error "TransientError: rate limited")
        ⟨some [⟨"ACGTACGTACGTACGTACGT", 0, true, "AGG"⟩], some [], none,
          none, none, none, none, none, none⟩).df_guides =
      some [⟨"ACGTACGTACGTACGTACGT", 0, true, "AGG"⟩] := by
  refine ⟨by decide, ?_⟩
  exact (report_failure_safe "ABCDEFGHIJKL" "TransientError: rate limited"
    ⟨some [⟨"ACGTACGTACGTACGTACGT", 0, true, "AGG"⟩], some [], none,
      none, none, none, none, none, none⟩ (by decide)).2.1

end Crispr
